import Mathlib

/-!
Verification of the core session logic of the mental-health chatbot in
`Calm.py`: the sentiment classifier, the mood log, the conversation state
and the response orchestration.

Embedding conventions:
* The TextBlob polarity scorer is external; it is modelled as a parameter
  `scorer : String → ℚ` producing the polarity of a text.
* The ollama chat backend is external; it is modelled as a parameter
  `backend : List ChatTurn → Option String`; `none` models a raised
  transport/model error. Since `generate_response` in the source has no
  exception handler, a raised error leaves the Streamlit session state
  exactly as it was at the moment of the raise, which the embedding
  reflects by returning the state accumulated so far on the `none` path.
* Wall-clock timestamps (`datetime.now().strftime(...)`) are modelled as a
  parameter `now : String`.
-/

namespace Calm

/-- One chat message, as stored in `st.session_state.conversation_history`:
a dict with keys `role` and `content`. -/
structure ChatTurn where
  role : String
  content : String
deriving DecidableEq

/-- One mood record, as stored in `st.session_state.mood_history` by
`track_mood`: a dict with keys `mood` and `timestamp` (and nothing else). -/
structure MoodEntry where
  mood : String
  timestamp : String
deriving DecidableEq

/-- The session-owned mutable state: `conversation_history`, `mood_history`
and `current_mood` from `st.session_state`. -/
structure SessionState where
  conversation_history : List ChatTurn
  mood_history : List MoodEntry
  current_mood : String
deriving DecidableEq

/-- The `st.session_state.setdefault` initialisation: empty histories and
`current_mood = "neutral"`. -/
def initialState : SessionState :=
  { conversation_history := [], mood_history := [], current_mood := "neutral" }

/-- The threshold bands of `analyze_sentiment`, mapping a polarity value to
a mood label string exactly as the chained `if/elif/else` in the source. -/
def classifyPolarity (polarity : ℚ) : String :=
  if polarity < -(1/2 : ℚ) then "😔 Stressed"
  else if polarity < 0 then "😟 Sad"
  else if polarity < (1/2 : ℚ) then "😊 Calm"
  else "😄 Happy"

/-- `analyze_sentiment(text)`: obtain the polarity of the text from the
external scorer (`TextBlob(text).sentiment.polarity`) and map it through
the threshold bands. -/
def analyze_sentiment (scorer : String → ℚ) (text : String) : String :=
  classifyPolarity (scorer text)

/-- `track_mood(mood)`: append one `{mood, timestamp}` record to
`mood_history`. -/
def track_mood (st : SessionState) (mood : String) (now : String) : SessionState :=
  { st with mood_history := st.mood_history ++ [⟨mood, now⟩] }

/-- The `Log Mood` button handler: it calls `track_mood(mood)` on the
selected label and touches nothing else. -/
def log_mood (st : SessionState) (mood : String) (now : String) : SessionState :=
  track_mood st mood now

/-- The context line built in `generate_response`. -/
def contextFor (mood : String) : String :=
  "User mood detected as " ++ mood ++ ". Respond with empathy and emotional support."

/-- The augmented user message `full_prompt = f"{context}\nUser: {user_input}"`. -/
def fullPrompt (mood : String) (user_input : String) : String :=
  contextFor mood ++ "\n" ++ "User: " ++ user_input

/-- `generate_response(user_input)`: classify, log the mood, set
`current_mood`, append the augmented user turn, call the backend on the
whole conversation, append the assistant turn and return the reply.
A backend failure (`none`) propagates after the user turn was appended. -/
def generate_response (scorer : String → ℚ) (backend : List ChatTurn → Option String)
    (now : String) (st : SessionState) (user_input : String) :
    Option String × SessionState :=
  let mood := analyze_sentiment scorer user_input
  let st1 := { track_mood st mood now with current_mood := mood }
  let st2 := { st1 with conversation_history :=
    st1.conversation_history ++ [⟨"user", fullPrompt mood user_input⟩] }
  match backend st2.conversation_history with
  | none => (none, st2)
  | some ai_response =>
      (some ai_response,
        { st2 with conversation_history :=
            st2.conversation_history ++ [⟨"assistant", ai_response⟩] })

/-- The single-turn prompt of `generate_affirmation`. -/
def affirmationPrompt (mood : String) : String :=
  "Provide a positive affirmation for someone feeling " ++ mood

/-- The single-turn prompt of `generate_meditation_guide`. -/
def meditationPrompt (mood : String) : String :=
  "Create a 5-minute guided meditation script for someone feeling " ++ mood

/-- `generate_affirmation()`: one backend call on a fresh single-message
list built from `current_mood`; the session state is not touched. -/
def generate_affirmation (backend : List ChatTurn → Option String)
    (st : SessionState) : Option String × SessionState :=
  (backend [⟨"user", affirmationPrompt st.current_mood⟩], st)

/-- `generate_meditation_guide()`: one backend call on a fresh
single-message list built from `current_mood`; the session state is not
touched. -/
def generate_meditation_guide (backend : List ChatTurn → Option String)
    (st : SessionState) : Option String × SessionState :=
  (backend [⟨"user", meditationPrompt st.current_mood⟩], st)

/-- The `Clear Chat` button handler: reset `conversation_history` and
`mood_history` to `[]`; `current_mood` is not assigned. -/
def clear_chat (st : SessionState) : SessionState :=
  { st with conversation_history := [], mood_history := [] }

/-- The only conversation mutation the source performs: a Python
`list.append` of one turn at the end of `conversation_history`. -/
def conversationAppend (hist : List ChatTurn) (turn : ChatTurn) : List ChatTurn :=
  hist ++ [turn]

/-- C1: for every text with computed polarity p, `analyze_sentiment`
returns exactly one of the four labels by the ordered half-open bands:
p < -0.5 is Stressed, -0.5 ≤ p < 0 is Sad, 0 ≤ p < 0.5 is Calm and
p ≥ 0.5 is Happy; in particular the boundaries -0.5, 0 and 0.5 map to
Sad, Calm and Happy respectively. -/
theorem analyze_sentiment_bands (scorer : String → ℚ) (text : String) :
    (analyze_sentiment scorer text = "😔 Stressed" ↔ scorer text < -(1/2 : ℚ)) ∧
    (analyze_sentiment scorer text = "😟 Sad" ↔
      (-(1/2 : ℚ) ≤ scorer text ∧ scorer text < 0)) ∧
    (analyze_sentiment scorer text = "😊 Calm" ↔
      ((0 : ℚ) ≤ scorer text ∧ scorer text < (1/2 : ℚ))) ∧
    (analyze_sentiment scorer text = "😄 Happy" ↔ (1/2 : ℚ) ≤ scorer text) := by
  unfold analyze_sentiment classifyPolarity
  split_ifs with h1 h2 h3 <;>
    refine ⟨⟨fun hs => ?_, fun hb => ?_⟩, ⟨fun hs => ?_, fun hb => ?_⟩,
            ⟨fun hs => ?_, fun hb => ?_⟩, ⟨fun hs => ?_, fun hb => ?_⟩⟩ <;>
    first
      | rfl
      | linarith
      | exact absurd hs (by decide)
      | (obtain ⟨hb1, hb2⟩ := hb; linarith)
      | (refine ⟨?_, ?_⟩ <;> linarith)

/-- Witness for C1 at the three boundary polarities and one interior
point. -/
theorem analyze_sentiment_bands_witness :
    analyze_sentiment (fun _ => -(7/10 : ℚ)) "x" = "😔 Stressed" ∧
    analyze_sentiment (fun _ => -(1/2 : ℚ)) "x" = "😟 Sad" ∧
    analyze_sentiment (fun _ => (0 : ℚ)) "x" = "😊 Calm" ∧
    analyze_sentiment (fun _ => (1/2 : ℚ)) "x" = "😄 Happy" := by
  refine ⟨?_, ?_, ?_, ?_⟩
  · exact (analyze_sentiment_bands (fun _ => -(7/10 : ℚ)) "x").1.mpr (by norm_num)
  · exact (analyze_sentiment_bands (fun _ => -(1/2 : ℚ)) "x").2.1.mpr (by norm_num)
  · exact (analyze_sentiment_bands (fun _ => (0 : ℚ)) "x").2.2.1.mpr (by norm_num)
  · exact (analyze_sentiment_bands (fun _ => (1/2 : ℚ)) "x").2.2.2.mpr (by norm_num)

/-- C2 counterexample: with a failing backend, `generate_response` does
not leave the conversation unchanged: the augmented user turn was appended
before the backend call and survives the failure, so the conversation
grows from 0 to 1 turns. -/
theorem generate_response_not_atomic :
    (generate_response (fun _ => 0) (fun _ => none) "t0" initialState "hello").1
      = none ∧
    (generate_response (fun _ => 0) (fun _ => none) "t0"
        initialState "hello").2.conversation_history.length
      = initialState.conversation_history.length + 1 := by
  constructor <;> rfl

/-- C2 (amended): on a backend failure inside `generate_response` the
augmented user turn has already been appended and remains, with no
assistant turn after it; only on success are both the user turn and the
assistant turn appended. -/
theorem generate_response_failure_shape
    (scorer : String → ℚ) (backend : List ChatTurn → Option String)
    (now : String) (st : SessionState) (text : String) :
    ((generate_response scorer backend now st text).1 = none →
      (generate_response scorer backend now st text).2.conversation_history
        = st.conversation_history
            ++ [⟨"user", fullPrompt (analyze_sentiment scorer text) text⟩]) ∧
    (∀ reply : String,
      (generate_response scorer backend now st text).1 = some reply →
      (generate_response scorer backend now st text).2.conversation_history
        = st.conversation_history
            ++ [⟨"user", fullPrompt (analyze_sentiment scorer text) text⟩,
                ⟨"assistant", reply⟩]) := by
  rcases hb : backend (st.conversation_history
      ++ [⟨"user", fullPrompt (analyze_sentiment scorer text) text⟩]) with _ | r <;>
    simp [generate_response, track_mood, hb]

/-- Witness for the amended C2: a concrete failing backend leaves exactly
the user turn, and a concrete succeeding backend leaves both turns. -/
theorem generate_response_failure_shape_witness :
    (generate_response (fun _ => 0) (fun _ => none) "t0"
        initialState "hi").2.conversation_history
      = [⟨"user", fullPrompt (analyze_sentiment (fun _ => 0) "hi") "hi"⟩] ∧
    (generate_response (fun _ => 0) (fun _ => some "ok") "t0"
        initialState "hi").2.conversation_history
      = [⟨"user", fullPrompt (analyze_sentiment (fun _ => 0) "hi") "hi"⟩,
         ⟨"assistant", "ok"⟩] := by
  constructor
  · simpa [initialState] using
      (generate_response_failure_shape (fun _ => 0) (fun _ => none) "t0"
        initialState "hi").1 rfl
  · simpa [initialState] using
      (generate_response_failure_shape (fun _ => 0) (fun _ => some "ok") "t0"
        initialState "hi").2 "ok" rfl

/-- C3: a successful `generate_response` call performs exactly the
documented steps: it classifies the text, appends the resulting mood entry
and sets `current_mood` to the label, appends the augmented user message
(the fixed mood-mentioning empathy instruction concatenated with the raw
text), calls the backend on the entire conversation including that new
user turn, appends the reply as the assistant turn, and returns the
reply. -/
theorem generate_response_success_steps
    (scorer : String → ℚ) (backend : List ChatTurn → Option String)
    (now : String) (st : SessionState) (text reply : String)
    (h : backend (st.conversation_history
          ++ [⟨"user", fullPrompt (analyze_sentiment scorer text) text⟩])
        = some reply) :
    generate_response scorer backend now st text =
      (some reply,
        { conversation_history := st.conversation_history
            ++ [⟨"user", fullPrompt (analyze_sentiment scorer text) text⟩,
                ⟨"assistant", reply⟩],
          mood_history := st.mood_history
            ++ [⟨analyze_sentiment scorer text, now⟩],
          current_mood := analyze_sentiment scorer text }) := by
  simp [generate_response, track_mood, h]

/-- Witness for C3 at a concrete scorer, backend, state and text. -/
theorem generate_response_success_steps_witness :
    generate_response (fun _ => 0) (fun _ => some "ok") "t0" initialState "hi"
      = (some "ok",
        { conversation_history :=
            [⟨"user", fullPrompt (analyze_sentiment (fun _ => 0) "hi") "hi"⟩,
             ⟨"assistant", "ok"⟩],
          mood_history := [⟨analyze_sentiment (fun _ => 0) "hi", "t0"⟩],
          current_mood := analyze_sentiment (fun _ => 0) "hi" }) := by
  simpa [initialState] using
    generate_response_success_steps (fun _ => 0) (fun _ => some "ok") "t0"
      initialState "hi" "ok" rfl

/-- C4: the mood log is append-only: `track_mood` grows `mood_history` by
exactly one entry and keeps every previously recorded entry unchanged in
insertion order, and after the clear action the log has length 0. -/
theorem track_mood_append_only (st : SessionState) (mood now : String) :
    (track_mood st mood now).mood_history.length
      = st.mood_history.length + 1 ∧
    (track_mood st mood now).mood_history.take st.mood_history.length
      = st.mood_history ∧
    (clear_chat st).mood_history.length = 0 := by
  refine ⟨by simp [track_mood], ?_, by simp [clear_chat]⟩
  simp [track_mood, List.take_left]

/-- C5 counterexample: the entry created by the manual Log Mood handler
for "😄 Happy" and the entry created by the classifier inside respond for
a text of polarity 1 at the same timestamp are the identical value: a
`MoodEntry` holds only `mood` and `timestamp`, so no source field
distinguishes manual from inferred entries. -/
theorem manual_inferred_same_entry :
    (log_mood initialState "😄 Happy" "t0").mood_history
      = [⟨"😄 Happy", "t0"⟩] ∧
    (generate_response (fun _ => 1) (fun _ => some "ok") "t0"
        initialState "great").2.mood_history
      = [⟨"😄 Happy", "t0"⟩] := by
  constructor
  · rfl
  · norm_num [generate_response, track_mood, analyze_sentiment,
      classifyPolarity, initialState]

/-- C5 (amended): a manual log of "😄 Happy" appends exactly one new entry
`{mood := "😄 Happy", timestamp := now}` to the mood log and changes
nothing else in the session (no classifier involvement); the entry carries
no source field, so it is indistinguishable from an inferred entry with
the same label and timestamp. -/
theorem log_mood_happy (st : SessionState) (now : String) :
    log_mood st "😄 Happy" now
      = { st with mood_history := st.mood_history ++ [⟨"😄 Happy", now⟩] } :=
  rfl

/-- C6: when the backend call inside `generate_response` fails,
`current_mood` still equals the classification of the user text and the
mood entry recorded before the call is still present: neither is rolled
back by the failure. -/
theorem generate_response_failure_keeps_mood
    (scorer : String → ℚ) (backend : List ChatTurn → Option String)
    (now : String) (st : SessionState) (text : String)
    (h : (generate_response scorer backend now st text).1 = none) :
    (generate_response scorer backend now st text).2.current_mood
      = analyze_sentiment scorer text ∧
    (generate_response scorer backend now st text).2.mood_history
      = st.mood_history ++ [⟨analyze_sentiment scorer text, now⟩] := by
  rcases hb : backend (st.conversation_history
      ++ [⟨"user", fullPrompt (analyze_sentiment scorer text) text⟩]) with _ | r <;>
    simp [generate_response, track_mood, hb]

/-- Witness for C6 with a concrete failing backend. -/
theorem generate_response_failure_keeps_mood_witness :
    (generate_response (fun _ => 0) (fun _ => none) "t0"
        initialState "hi").2.current_mood
      = analyze_sentiment (fun _ => 0) "hi" ∧
    (generate_response (fun _ => 0) (fun _ => none) "t0"
        initialState "hi").2.mood_history
      = [⟨analyze_sentiment (fun _ => 0) "hi", "t0"⟩] := by
  simpa [initialState] using
    generate_response_failure_keeps_mood (fun _ => 0) (fun _ => none) "t0"
      initialState "hi" rfl

/-- C7: `generate_affirmation` and `generate_meditation_guide` are
stateless single-turn calls: each sends the backend exactly one fresh user
message whose prompt is a function of `current_mood` alone, and returns
the session state unchanged — nothing is appended to the conversation,
nothing is logged to the mood history, and `current_mood` is not
touched. -/
theorem affirmation_meditation_stateless
    (backend : List ChatTurn → Option String) (st : SessionState) :
    generate_affirmation backend st
      = (backend [⟨"user", affirmationPrompt st.current_mood⟩], st) ∧
    generate_meditation_guide backend st
      = (backend [⟨"user", meditationPrompt st.current_mood⟩], st) :=
  ⟨rfl, rfl⟩

/-- C8: the conversation preserves insertion order: appending any sequence
of turns one by one yields exactly that sequence after the existing
history, in the same order. -/
theorem conversation_append_order (h0 : List ChatTurn) (turns : List ChatTurn) :
    turns.foldl conversationAppend h0 = h0 ++ turns := by
  induction turns generalizing h0 with
  | nil => simp
  | cons t ts ih => simp [conversationAppend, ih]

/-- C9: the Clear Chat action empties both the conversation history and
the mood history but does not assign `current_mood`, so affirmation and
meditation prompts issued after a reset are still parameterized by the
mood held before the reset. -/
theorem clear_chat_keeps_mood (st : SessionState)
    (backend : List ChatTurn → Option String) :
    (clear_chat st).conversation_history = [] ∧
    (clear_chat st).mood_history = [] ∧
    (clear_chat st).current_mood = st.current_mood ∧
    generate_affirmation backend (clear_chat st)
      = (backend [⟨"user", affirmationPrompt st.current_mood⟩], clear_chat st) ∧
    generate_meditation_guide backend (clear_chat st)
      = (backend [⟨"user", meditationPrompt st.current_mood⟩], clear_chat st) :=
  ⟨rfl, rfl, rfl, rfl, rfl⟩

/-- C10: in the initial session state `current_mood` is the string
"neutral", which the classifier can never produce (it is none of the four
labels), and affirmation and meditation calls made in that state build
their prompts from this out-of-enum value. -/
theorem initial_mood_neutral (backend : List ChatTurn → Option String) :
    initialState.current_mood = "neutral" ∧
    (∀ p : ℚ, classifyPolarity p ≠ "neutral") ∧
    "neutral" ∉ ["😔 Stressed", "😟 Sad", "😊 Calm", "😄 Happy"] ∧
    generate_affirmation backend initialState
      = (backend [⟨"user",
          "Provide a positive affirmation for someone feeling neutral"⟩],
         initialState) ∧
    generate_meditation_guide backend initialState
      = (backend [⟨"user",
          "Create a 5-minute guided meditation script for someone feeling neutral"⟩],
         initialState) := by
  refine ⟨rfl, ?_, by decide, rfl, rfl⟩
  intro p
  unfold classifyPolarity
  split_ifs <;> decide

/-- Witness for C10 at a concrete backend and polarity. -/
theorem initial_mood_neutral_witness :
    initialState.current_mood = "neutral" ∧
    classifyPolarity 0 ≠ "neutral" ∧
    generate_affirmation (fun _ => none) initialState
      = (none, initialState) :=
  ⟨(initial_mood_neutral (fun _ => none)).1,
   (initial_mood_neutral (fun _ => none)).2.1 0,
   (initial_mood_neutral (fun _ => none)).2.2.2.1⟩

end Calm
